import Mathlib

/-!
Verification of the SPI abstraction layer in rust/kernel/spi.rs.

The Rust module is a thin wrapper over three host (kernel) entry points:
driver registration, driver unregistration and the synchronous
write-then-read transfer.  The embedding below models the host entry
points as oracle functions supplied by the environment and records every
foreign call in an explicit `HostCall` trace, so that "the host entry
point was invoked" is an inspectable fact.  A possible panic (the
`Option::unwrap` in the `Drop` implementation) is modelled by an
`Option` result, `none` meaning the panic branch was reached.
-/

set_option autoImplicit false

namespace SpiAbstraction

/-- Raw pointer values (addresses) are modelled as natural numbers. -/
abbrev Ptr := Nat

/-- Modelled from the spec: the crate error type (crate::error::Error, the
file error.rs is not part of the sources).  Per the error taxonomy, an
error either marks misuse (EINVAL, the code used for a second call to
register) or carries the host's numeric status code verbatim
(Error::from_kernel_errno). -/
inductive Error where
  | EINVAL : Error
  | from_kernel_errno (code : Int) : Error
deriving DecidableEq

/-- Modelled from the spec: Error::to_kernel_errno (error.rs is not part of
the sources) returns the numeric kernel code carried by the error; EINVAL
is the kernel's invalid-argument code -22. -/
def Error.to_kernel_errno : Error → Int
  | Error.EINVAL => -22
  | Error.from_kernel_errno code => code

/-- crate::Result, aliased KernelResult in spi.rs. -/
abbrev KernelResult := Except Error Unit

/-- Abstraction around an SPI device: a newtype over the raw device
pointer (spi.rs line 20). -/
structure SpiDevice where
  ptr : Ptr
deriving DecidableEq

/-- SpiDevice::from_ptr (spi.rs lines 24-26). -/
def SpiDevice.from_ptr (dev : Ptr) : SpiDevice :=
  SpiDevice.mk dev

/-- SpiDevice::to_ptr (spi.rs lines 29-31). -/
def SpiDevice.to_ptr (self : SpiDevice) : Ptr :=
  self.ptr

/-- Modelled from the spec: the embedded struct device_driver of
bindings::spi_driver (the bindings are generated from kernel headers and
are not part of the sources).  Only the name field is ever touched by
spi.rs; a null name pointer is `none`. -/
structure bindings.device_driver where
  name : Option String
deriving DecidableEq

/-- Modelled from the spec: the foreign descriptor record
bindings::spi_driver (not part of the sources).  Per the spec it has a
name (inside the embedded driver field), an identifier-table pointer and
three callback function-pointer slots; `none` models a null pointer.
Function pointers are modelled by their addresses. -/
structure bindings.spi_driver where
  driver : bindings.device_driver
  id_table : Option Ptr
  probe : Option Ptr
  remove : Option Ptr
  shutdown : Option Ptr
deriving DecidableEq

/-- bindings::spi_driver::default(): the zero-initialized descriptor, all
pointer slots null. -/
def bindings.spi_driver.default : bindings.spi_driver :=
  { driver := { name := none }, id_table := none,
    probe := none, remove := none, shutdown := none }

/-- One foreign call issued to the host kernel.  Buffers are lists of
byte values; lengths are the c_uint values the host receives. -/
inductive HostCall where
  | registerDriver (module_token : Ptr) (drv : bindings.spi_driver)
  | driverUnregister (drv : bindings.device_driver)
  | writeThenRead (dev : Ptr) (tx : List Nat) (n_tx : Nat) (rx : List Nat) (n_rx : Nat)
deriving DecidableEq

/-- A registration of an SPI driver (spi.rs lines 35-43).  CStr names are
modelled as strings, the &'static ThisModule reference as a token. -/
structure DriverRegistration where
  this_module : Ptr
  registered : Bool
  name : String
  probe : Option Ptr
  remove : Option Ptr
  shutdown : Option Ptr
  spi_driver : Option bindings.spi_driver
deriving DecidableEq

/-- DriverRegistration::new (spi.rs lines 46-62): state Unregistered,
descriptor absent. -/
def DriverRegistration.new (this_module : Ptr) (name : String)
    (probe remove shutdown : Option Ptr) : DriverRegistration :=
  { this_module := this_module, registered := false, name := name,
    probe := probe, remove := remove, shutdown := shutdown,
    spi_driver := none }

/-- The descriptor built by register() before submission (spi.rs lines
87-91): default descriptor with the name and the three callback slots
copied from the registration.  The id_table slot is not written. -/
def DriverRegistration.build_driver (self : DriverRegistration) : bindings.spi_driver :=
  { bindings.spi_driver.default with
    driver := { bindings.spi_driver.default.driver with name := some self.name },
    probe := self.probe, remove := self.remove, shutdown := self.shutdown }

/-- DriverRegistration::register (spi.rs lines 86-109).  `host` is the
oracle for __spi_register_driver, returning the integer status.  Returns
the KernelResult, the updated registration and the trace of host calls
issued.  The source builds the descriptor, rejects a second registration
with EINVAL before any host call, stores the descriptor, submits it, and
sets the registered flag only on a zero status; a non-zero status is
wrapped by Error::from_kernel_errno and the flag is left false. -/
def DriverRegistration.register (host : Ptr → bindings.spi_driver → Int)
    (self : DriverRegistration) :
    KernelResult × DriverRegistration × List HostCall :=
  if self.registered then
    (Except.error Error.EINVAL, self, [])
  else if host self.this_module self.build_driver = 0 then
    (Except.ok (),
     { self with spi_driver := some self.build_driver, registered := true },
     [HostCall.registerDriver self.this_module self.build_driver])
  else
    (Except.error (Error.from_kernel_errno (host self.this_module self.build_driver)),
     { self with spi_driver := some self.build_driver },
     [HostCall.registerDriver self.this_module self.build_driver])

/-- Drop for DriverRegistration (spi.rs lines 112-117):
`driver_unregister(&mut self.spi_driver.unwrap().driver)` with no check of
the registered flag.  `none` models the panic of unwrap() on an absent
descriptor; `some trace` gives the host calls issued. -/
def DriverRegistration.drop (self : DriverRegistration) : Option (List HostCall) :=
  match self.spi_driver with
  | none => none
  | some d => some [HostCall.driverUnregister d.driver]

/-- The usize → c_types::c_uint cast applied to the length arguments in
Spi::write_then_read (spi.rs lines 188 and 190).  c_uint is the host's
32-bit unsigned int, so the cast truncates modulo 2^32. -/
def usize_to_c_uint (n : Nat) : Nat := n % 2 ^ 32

/-- Abstraction struct around basic SPI functions (spi.rs line 172). -/
structure Spi

/-- Spi::write_then_read (spi.rs lines 177-198).  `host` is the oracle
for spi_write_then_read, receiving the device pointer, the two buffers
and the two c_uint lengths, and returning the integer status.  A zero
status yields Ok; any other status is wrapped by Error::from_kernel_errno.
The trace records the single host call issued. -/
def Spi.write_then_read (host : Ptr → List Nat → Nat → List Nat → Nat → Int)
    (dev : SpiDevice) (tx_buf : List Nat) (n_tx : Nat)
    (rx_buf : List Nat) (n_rx : Nat) :
    KernelResult × List HostCall :=
  if host dev.to_ptr tx_buf (usize_to_c_uint n_tx) rx_buf (usize_to_c_uint n_rx) = 0 then
    (Except.ok (),
     [HostCall.writeThenRead dev.to_ptr tx_buf (usize_to_c_uint n_tx)
        rx_buf (usize_to_c_uint n_rx)])
  else
    (Except.error (Error.from_kernel_errno
        (host dev.to_ptr tx_buf (usize_to_c_uint n_tx) rx_buf (usize_to_c_uint n_rx))),
     [HostCall.writeThenRead dev.to_ptr tx_buf (usize_to_c_uint n_tx)
        rx_buf (usize_to_c_uint n_rx)])

/-- Spi::write (spi.rs lines 202-204): write_then_read with an empty
receive buffer ([0u8; 0]) and receive length 0. -/
def Spi.write (host : Ptr → List Nat → Nat → List Nat → Nat → Int)
    (dev : SpiDevice) (tx_buf : List Nat) (n_tx : Nat) :
    KernelResult × List HostCall :=
  Spi.write_then_read host dev tx_buf n_tx (List.replicate 0 0) 0

/-- Spi::read (spi.rs lines 208-210): write_then_read with an empty
transmit buffer ([0u8; 0]) and transmit length 0. -/
def Spi.read (host : Ptr → List Nat → Nat → List Nat → Nat → Int)
    (dev : SpiDevice) (rx_buf : List Nat) (n_rx : Nat) :
    KernelResult × List HostCall :=
  Spi.write_then_read host dev (List.replicate 0 0) 0 rx_buf n_rx

/-- The trampoline generated by the first spi_method! recipe (spi.rs
lines 148-159), used for probe and remove: wraps the raw device pointer
into an SpiDevice, runs the user handler, and translates Ok to 0 and an
error to its numeric kernel code. -/
def spi_method_int (inner : SpiDevice → KernelResult) (dev : Ptr) : Int :=
  match inner (SpiDevice.from_ptr dev) with
  | Except.ok _ => 0
  | Except.error e => e.to_kernel_errno

/-- The trampoline generated by the second spi_method! recipe (spi.rs
lines 160-168), used for shutdown: wraps the raw device pointer into an
SpiDevice and runs the void user handler; nothing is returned to the
host. -/
def spi_method_void (inner : SpiDevice → Unit) (dev : Ptr) : Unit :=
  inner (SpiDevice.from_ptr dev)

/-! ### Concrete instances used by witnesses and counterexamples -/

/-- A host registration oracle that accepts every descriptor. -/
def host_accept : Ptr → bindings.spi_driver → Int := fun _ _ => 0

/-- A host registration oracle that rejects every descriptor with -5. -/
def host_reject : Ptr → bindings.spi_driver → Int := fun _ _ => -5

/-- A fresh registration with no callbacks supplied. -/
def reg_plain : DriverRegistration :=
  DriverRegistration.new 0 "spi0" none none none

/-- A fresh registration supplying all three callbacks. -/
def reg_full : DriverRegistration :=
  DriverRegistration.new 0 "spi0" (some 11) (some 12) (some 13)

/-- The state left behind by a register() call the host rejected. -/
def reg_after_failed_register : DriverRegistration :=
  (reg_plain.register host_reject).2.1

/-- The state left behind by a register() call the host accepted. -/
def reg_after_ok_register : DriverRegistration :=
  (reg_plain.register host_accept).2.1

/-- A transfer oracle that reports success for every transfer. -/
def host_xfer_ok : Ptr → List Nat → Nat → List Nat → Nat → Int :=
  fun _ _ _ _ _ => 0

/-- A transfer oracle that reports status -5 for every transfer. -/
def host_xfer_fail : Ptr → List Nat → Nat → List Nat → Nat → Int :=
  fun _ _ _ _ _ => -5

/-! ### Claims -/

/-- C1: the code is at odds with the claim.  Dropping an instance left in
the Unregistered state by a failed register() call does invoke the host
unregistration entry point, because Drop never consults the registered
flag; dropping a successfully registered instance invokes it exactly
once, as the claim says for that half. -/
theorem drop_unregistered_still_unregisters :
    reg_after_failed_register.registered = false ∧
    reg_after_failed_register.drop =
      some [HostCall.driverUnregister reg_plain.build_driver.driver] ∧
    reg_after_ok_register.registered = true ∧
    reg_after_ok_register.drop =
      some [HostCall.driverUnregister reg_plain.build_driver.driver] := by
  refine ⟨rfl, ?_, rfl, ?_⟩ <;> rfl

/-- C2: the code is at odds with the claim.  The teardown path
force-unwraps the optional descriptor, so dropping an instance that was
never registered (descriptor absent) reaches the panic branch, modelled
by drop returning none. -/
theorem drop_never_registered_panics :
    reg_plain.spi_driver = none ∧ reg_plain.drop = none := by
  exact ⟨rfl, rfl⟩

/-- C3: on an Unregistered instance, register() returns Ok exactly when
the host registration entry point returns 0, in which case the registered
flag becomes true; a non-zero host status is returned as an error
carrying that status and the flag stays false. -/
theorem register_matches_host_status (host : Ptr → bindings.spi_driver → Int)
    (r : DriverRegistration) (h : r.registered = false) :
    ((r.register host).1 = Except.ok () ↔ host r.this_module r.build_driver = 0) ∧
    (host r.this_module r.build_driver = 0 →
      (r.register host).2.1.registered = true) ∧
    (host r.this_module r.build_driver ≠ 0 →
      (r.register host).1 =
        Except.error (Error.from_kernel_errno (host r.this_module r.build_driver)) ∧
      (r.register host).2.1.registered = false) := by
  by_cases hc : host r.this_module r.build_driver = 0 <;>
    simp [DriverRegistration.register, h, hc]

/-- Witness for C3: the hypotheses hold at a concrete registration and
host, and the conclusion evaluates there. -/
theorem register_matches_host_status_witness :
    reg_plain.registered = false ∧
    (((reg_plain.register host_accept).1 = Except.ok () ↔
        host_accept reg_plain.this_module reg_plain.build_driver = 0) ∧
     (host_accept reg_plain.this_module reg_plain.build_driver = 0 →
        (reg_plain.register host_accept).2.1.registered = true) ∧
     (host_accept reg_plain.this_module reg_plain.build_driver ≠ 0 →
        (reg_plain.register host_accept).1 =
          Except.error (Error.from_kernel_errno
            (host_accept reg_plain.this_module reg_plain.build_driver)) ∧
        (reg_plain.register host_accept).2.1.registered = false)) :=
  ⟨rfl, register_matches_host_status host_accept reg_plain rfl⟩

/-- C4: on an instance already in the Registered state, register() fails
with EINVAL, issues no host call (empty trace) and leaves the whole state
unchanged. -/
theorem register_twice_fails (host : Ptr → bindings.spi_driver → Int)
    (r : DriverRegistration) (h : r.registered = true) :
    (r.register host).1 = Except.error Error.EINVAL ∧
    (r.register host).2.1 = r ∧
    (r.register host).2.2 = [] := by
  simp [DriverRegistration.register, h]

/-- Witness for C4: the hypothesis holds for a concrete registered
instance and the conclusion evaluates there. -/
theorem register_twice_fails_witness :
    reg_after_ok_register.registered = true ∧
    ((reg_after_ok_register.register host_accept).1 = Except.error Error.EINVAL ∧
     (reg_after_ok_register.register host_accept).2.1 = reg_after_ok_register ∧
     (reg_after_ok_register.register host_accept).2.2 = []) :=
  ⟨rfl, register_twice_fails host_accept reg_after_ok_register rfl⟩

/-- C5 counterexample: register() does not populate any identifier-table
reference.  For a concrete registration supplying all three callbacks the
host accepts, the descriptor submitted to the host has a null (absent)
id_table slot. -/
theorem register_id_table_is_null :
    (reg_full.register host_accept).2.2 =
      [HostCall.registerDriver 0 reg_full.build_driver] ∧
    reg_full.build_driver.id_table.isSome = false ∧
    (reg_full.register host_accept).1 = Except.ok () := by
  refine ⟨?_, rfl, ?_⟩ <;> rfl

/-- C5 amended: register() populates the submitted descriptor's name and
the three callback slots from the registration — each slot is exactly the
supplied option, so unsupplied callbacks give null slots and supplied
ones give non-null slots — while the identifier-table slot is left at its
null default. -/
theorem register_populates_descriptor (host : Ptr → bindings.spi_driver → Int)
    (r : DriverRegistration) (h : r.registered = false) :
    r.build_driver.driver.name = some r.name ∧
    r.build_driver.id_table = none ∧
    r.build_driver.probe = r.probe ∧
    r.build_driver.remove = r.remove ∧
    r.build_driver.shutdown = r.shutdown ∧
    (r.register host).2.2 =
      [HostCall.registerDriver r.this_module r.build_driver] := by
  refine ⟨rfl, rfl, rfl, rfl, rfl, ?_⟩
  by_cases hc : host r.this_module r.build_driver = 0 <;>
    simp [DriverRegistration.register, h, hc]

/-- Witness for C5: the hypothesis holds at a concrete unregistered
instance and the conclusion evaluates there. -/
theorem register_populates_descriptor_witness :
    reg_full.registered = false ∧
    (reg_full.build_driver.driver.name = some reg_full.name ∧
     reg_full.build_driver.id_table = none ∧
     reg_full.build_driver.probe = reg_full.probe ∧
     reg_full.build_driver.remove = reg_full.remove ∧
     reg_full.build_driver.shutdown = reg_full.shutdown ∧
     (reg_full.register host_reject).2.2 =
       [HostCall.registerDriver reg_full.this_module reg_full.build_driver]) :=
  ⟨rfl, register_populates_descriptor host_reject reg_full rfl⟩

/-- C6: write_then_read returns Ok exactly when the host transfer entry
point reports status 0, and otherwise returns an error carrying the
host's status code unchanged. -/
theorem write_then_read_matches_host_status
    (host : Ptr → List Nat → Nat → List Nat → Nat → Int) (dev : SpiDevice)
    (tx rx : List Nat) (n_tx n_rx : Nat) :
    ((Spi.write_then_read host dev tx n_tx rx n_rx).1 = Except.ok () ↔
      host dev.to_ptr tx (usize_to_c_uint n_tx) rx (usize_to_c_uint n_rx) = 0) ∧
    (host dev.to_ptr tx (usize_to_c_uint n_tx) rx (usize_to_c_uint n_rx) ≠ 0 →
      (Spi.write_then_read host dev tx n_tx rx n_rx).1 =
        Except.error (Error.from_kernel_errno
          (host dev.to_ptr tx (usize_to_c_uint n_tx) rx (usize_to_c_uint n_rx)))) := by
  by_cases hc : host dev.to_ptr tx (usize_to_c_uint n_tx) rx (usize_to_c_uint n_rx) = 0 <;>
    simp [Spi.write_then_read, hc]

/-- Witness for C6: the conclusion evaluates at a concrete device, a
failing transfer oracle and concrete buffers. -/
theorem write_then_read_matches_host_status_witness :
    ((Spi.write_then_read host_xfer_fail (SpiDevice.from_ptr 7) [1, 2] 2 [0] 1).1 =
        Except.ok () ↔
      host_xfer_fail (SpiDevice.from_ptr 7).to_ptr [1, 2] (usize_to_c_uint 2) [0]
        (usize_to_c_uint 1) = 0) ∧
    (host_xfer_fail (SpiDevice.from_ptr 7).to_ptr [1, 2] (usize_to_c_uint 2) [0]
        (usize_to_c_uint 1) ≠ 0 →
      (Spi.write_then_read host_xfer_fail (SpiDevice.from_ptr 7) [1, 2] 2 [0] 1).1 =
        Except.error (Error.from_kernel_errno
          (host_xfer_fail (SpiDevice.from_ptr 7).to_ptr [1, 2] (usize_to_c_uint 2) [0]
            (usize_to_c_uint 1)))) :=
  write_then_read_matches_host_status host_xfer_fail (SpiDevice.from_ptr 7) [1, 2] [0] 2 1

/-- C7: Spi::write is the same function of the host and device as
write_then_read with an empty receive buffer and length 0, and Spi::read
the same as write_then_read with an empty transmit buffer and length 0:
identical result and identical host-call trace. -/
theorem write_read_are_write_then_read
    (host : Ptr → List Nat → Nat → List Nat → Nat → Int) (dev : SpiDevice)
    (tx rx : List Nat) (n_tx n_rx : Nat) :
    Spi.write host dev tx n_tx = Spi.write_then_read host dev tx n_tx [] 0 ∧
    Spi.read host dev rx n_rx = Spi.write_then_read host dev [] 0 rx n_rx :=
  ⟨rfl, rfl⟩

/-- C8: the probe/remove trampoline returns 0 to the host exactly when
the handler returns Ok (given the kernel convention, stated as the
hypothesis, that handler errors carry a non-zero code), returns the
error's numeric kernel code when the handler fails, and the shutdown
trampoline returns nothing to the host regardless of the handler. -/
theorem spi_method_translates_results (inner : SpiDevice → KernelResult)
    (innerV : SpiDevice → Unit) (dev : Ptr)
    (h : ∀ e, inner (SpiDevice.from_ptr dev) = Except.error e →
      e.to_kernel_errno ≠ 0) :
    (spi_method_int inner dev = 0 ↔
      inner (SpiDevice.from_ptr dev) = Except.ok ()) ∧
    (∀ e, inner (SpiDevice.from_ptr dev) = Except.error e →
      spi_method_int inner dev = e.to_kernel_errno) ∧
    spi_method_void innerV dev = () := by
  cases hi : inner (SpiDevice.from_ptr dev) with
  | ok u => cases u; simp [spi_method_int, hi]
  | error e => simp [spi_method_int, hi, h e hi]

/-- Witness for C8: concrete handlers (an always-failing probe handler
with code -19 and a void shutdown handler); the hypothesis and conclusion
evaluate there. -/
theorem spi_method_translates_results_witness :
    (∀ e, (fun _ : SpiDevice => (Except.error (Error.from_kernel_errno (-19)) :
          KernelResult)) (SpiDevice.from_ptr 3) = Except.error e →
        e.to_kernel_errno ≠ 0) ∧
    ((spi_method_int (fun _ => Except.error (Error.from_kernel_errno (-19))) 3 = 0 ↔
        (fun _ : SpiDevice => (Except.error (Error.from_kernel_errno (-19)) :
          KernelResult)) (SpiDevice.from_ptr 3) = Except.ok ()) ∧
     (∀ e, (fun _ : SpiDevice => (Except.error (Error.from_kernel_errno (-19)) :
          KernelResult)) (SpiDevice.from_ptr 3) = Except.error e →
        spi_method_int (fun _ => Except.error (Error.from_kernel_errno (-19))) 3 =
          e.to_kernel_errno) ∧
     spi_method_void (fun _ => ()) 3 = ()) :=
  ⟨by intro e he; cases he; decide,
   spi_method_translates_results (fun _ => Except.error (Error.from_kernel_errno (-19)))
     (fun _ => ()) 3 (by intro e he; cases he; decide)⟩

/-- C9 counterexample: the length argument is not forwarded verbatim.
With n_tx = 2^32 the host receives length 0 (the usize value is truncated
by the cast to the 32-bit c_uint), not 2^32. -/
theorem length_not_forwarded_verbatim :
    (Spi.write_then_read host_xfer_ok (SpiDevice.from_ptr 1) [] (2 ^ 32) [] 0).2 =
      [HostCall.writeThenRead 1 [] 0 [] 0] ∧
    (2 ^ 32 : Nat) ≠ 0 := by
  constructor
  · rfl
  · decide

/-- C9 amended: the lengths reaching the host are the arguments reduced
modulo 2^32 (the usize → c_uint cast), for every choice of buffers: they
are never checked against or derived from the buffer sizes, and any
lengths, including ones exceeding the buffer sizes, are forwarded without
validation. -/
theorem lengths_forwarded_mod_c_uint
    (host : Ptr → List Nat → Nat → List Nat → Nat → Int) (dev : SpiDevice)
    (tx rx : List Nat) (n_tx n_rx : Nat) :
    (Spi.write_then_read host dev tx n_tx rx n_rx).2 =
      [HostCall.writeThenRead dev.to_ptr tx (n_tx % 2 ^ 32) rx (n_rx % 2 ^ 32)] := by
  unfold Spi.write_then_read
  split <;> rfl

/-- C10: wrapping a raw device pointer and unwrapping it is the identity,
and the handle holds nothing beyond the wrapped pointer: rebuilding from
the extracted pointer gives back the same handle. -/
theorem spi_device_ptr_roundtrip :
    (∀ p : Ptr, (SpiDevice.from_ptr p).to_ptr = p) ∧
    (∀ d : SpiDevice, SpiDevice.from_ptr d.to_ptr = d) :=
  ⟨fun _ => rfl, fun _ => rfl⟩

end SpiAbstraction
